import Mathlib

/-!
Verification development for the `type-surrealdb` library (`src/index.ts`).

The development contains two cooperating shallow embeddings:

1. a pure model of the schema renderer `generateSurqlSchema` (source lines
   191-342), in which a registered declaration's descriptor is a resolved
   value (`SchemaObject`) whose `properties` mapping is an insertion-ordered
   association list, exactly as JavaScript objects iterate string keys; and

2. a heap model of the registration phase (the `Field` decorator,
   `initializeSchema`, source lines 112-166), in which JavaScript objects
   holding `properties` mappings are explicit heap cells addressed by
   numeric references, so that object identity, in-place mutation and
   aliasing are observable.

JavaScript truthiness is modelled explicitly: an absent value and the empty
string are falsy; `false` and absent booleans are falsy.
-/

/-- Truthiness of an optional string, as JavaScript sees it: absent and
the empty string are falsy. -/
def optStrTruthy : Option String → Bool
  | none => false
  | some s => s != ""

/-- Truthiness of an optional boolean: absent and `false` are falsy. -/
def optBoolTruthy : Option Bool → Bool
  | none => false
  | some b => b

/-- Runtime value of the `typed` attribute of a field configuration:
either a plain string or a reference to a class (anything whose `typeof`
is not `'string'`). -/
inductive TypedVal where
  | str (s : String)
  | ref
deriving DecidableEq

/-- Truthiness of an optional `typed` value: a class reference is truthy,
a string is truthy when non-empty. -/
def typedTruthy : Option TypedVal → Bool
  | none => false
  | some (.str s) => s != ""
  | some .ref => true

mutual
/-- FieldSchemaProperty / FieldConfig (source lines 40-75), resolved form
used by the renderer.  Every attribute is optional, as in the source
interface; `properties` distinguishes an absent key from a present mapping
because the source tests `'properties' in fieldConfig`. -/
inductive FieldConfig where
  | mk (type : Option String) (typed : Option TypedVal)
       (default : Option String) (value : Option String) (assertion : Option String)
       (indexed : Option Bool) (unique : Option Bool) (primary : Option Bool)
       (optional : Option Bool) (properties : PropsVal)

/-- Presence or absence of the `properties` key on a field configuration. -/
inductive PropsVal where
  | absent
  | present (l : PropList)

/-- Insertion-ordered mapping from field names to configurations
(`PropertiesTypes`, source lines 78-80). -/
inductive PropList where
  | nil
  | cons (name : String) (fc : FieldConfig) (tl : PropList)
end

def FieldConfig.type : FieldConfig → Option String
  | .mk t _ _ _ _ _ _ _ _ _ => t

def FieldConfig.typed : FieldConfig → Option TypedVal
  | .mk _ t _ _ _ _ _ _ _ _ => t

def FieldConfig.default : FieldConfig → Option String
  | .mk _ _ d _ _ _ _ _ _ _ => d

def FieldConfig.value : FieldConfig → Option String
  | .mk _ _ _ v _ _ _ _ _ _ => v

def FieldConfig.assertion : FieldConfig → Option String
  | .mk _ _ _ _ a _ _ _ _ _ => a

def FieldConfig.indexed : FieldConfig → Option Bool
  | .mk _ _ _ _ _ i _ _ _ _ => i

def FieldConfig.unique : FieldConfig → Option Bool
  | .mk _ _ _ _ _ _ u _ _ _ => u

def FieldConfig.primary : FieldConfig → Option Bool
  | .mk _ _ _ _ _ _ _ p _ _ => p

def FieldConfig.optional : FieldConfig → Option Bool
  | .mk _ _ _ _ _ _ _ _ o _ => o

def FieldConfig.properties : FieldConfig → PropsVal
  | .mk _ _ _ _ _ _ _ _ _ ps => ps

/-- Composite-kind test used at source lines 148-153, 204-210 and 250-255:
the five kinds that may carry a `typed` parameter and nested properties. -/
def isComposite (t : Option String) : Bool :=
  t == some "option" || t == some "set" || t == some "array" ||
  t == some "record" || t == some "object"

/-- Array.join(' ') of the statement parts accumulated by the source
(`fieldDefinition.join(' ')`, `indexDefinition.join(' ')`). -/
def joinSpace : List String → String
  | [] => ""
  | [s] => s
  | s :: rest => s ++ " " ++ joinSpace rest

/-- Array.join('\n') over the accumulated `schemaParts`. -/
def joinNl : List String → String
  | [] => ""
  | [s] => s
  | s :: rest => s ++ "\n" ++ joinNl rest

/-- Array.join('_') and Array.join(', ') used for table-level index names
and field lists (source line 290). -/
def joinWith (sep : String) : List String → String
  | [] => ""
  | [s] => s
  | s :: rest => s ++ sep ++ joinWith sep rest

/-- Computation of the rendered type string, source lines 201-229 of
`addFieldDefinition`: primary override, composite kinds with string /
reference / absent `typed`, scalar kinds with the `$$generic` marker and
the `any` default. -/
def computeFieldType (tableName : String) (tableGeneric : Option String)
    (fc : FieldConfig) : String :=
  if optBoolTruthy fc.primary then
    "record<" ++ tableName ++ ">"
  else
    match fc.type with
    | some t =>
      if isComposite (some t) then
        if typedTruthy fc.typed then
          match fc.typed with
          | some (.str s) =>
            t ++ "<" ++ (if s = "$$generic" then tableGeneric.getD "any" else s) ++ ">"
          | _ =>
            if t = "object" then "object" else t ++ "<object>"
        else t
      else
        if t = "$$generic" then tableGeneric.getD "any" else t
    | none => "any"

/-- Clause emission for DEFAULT / VALUE / ASSERT (source lines 237-245):
the clause is pushed only when the attribute is truthy, so an empty string
is skipped exactly like an absent attribute. -/
def clauseParts (kw : String) : Option String → List String
  | none => []
  | some s => if s = "" then [] else [kw ++ " " ++ s]

/-- One `DEFINE FIELD` statement (source lines 200-247, without the nested
recursion): the parts pushed onto `fieldDefinition`, joined by spaces,
terminated by a semicolon. -/
def fieldStatement (tableName : String) (tableGeneric : Option String)
    (fieldName : String) (fc : FieldConfig) : String :=
  let fieldtype := computeFieldType tableName tableGeneric fc
  joinSpace
    (["DEFINE FIELD " ++ fieldName ++ " ON " ++ tableName]
      ++ [if optBoolTruthy fc.optional then "TYPE option<" ++ fieldtype ++ ">"
          else "TYPE " ++ fieldtype]
      ++ clauseParts "DEFAULT" fc.default
      ++ clauseParts "VALUE" fc.value
      ++ clauseParts "ASSERT" fc.assertion) ++ ";"

/-- Replacement of every `.` and `*` character by `_`, the regular
expression replace at source line 278. -/
def replaceStarDot (s : String) : String :=
  String.mk (s.data.map (fun c => if c == '*' || c == '.' then '_' else c))

/-- Implicit per-field index statement, `addIndexDefinition`
(source lines 271-285): emitted when `primary`, `indexed` or `unique` is
truthy; `UNIQUE` appended when `primary` or `unique` is truthy. -/
def addIndexDefinition (tableName fieldName : String) (fc : FieldConfig) :
    List String :=
  if optBoolTruthy fc.primary || optBoolTruthy fc.indexed || optBoolTruthy fc.unique then
    [joinSpace
      (["DEFINE INDEX idx_" ++ tableName ++ "_" ++ replaceStarDot fieldName
          ++ " ON " ++ tableName ++ " FIELDS " ++ fieldName]
        ++ (if optBoolTruthy fc.primary || optBoolTruthy fc.unique then ["UNIQUE"] else []))
      ++ ";"]
  else []

/-- Path under which a nested field of a composite parent is rendered
(source lines 261-264): `parent.*.child` for `set` and `array` parents,
`parent.child` otherwise. -/
def childPath (parentType : Option String) (fieldName nested : String) : String :=
  if parentType == some "set" || parentType == some "array" then
    fieldName ++ ".*." ++ nested
  else fieldName ++ "." ++ nested

mutual
/-- Statements pushed by one call of `addFieldDefinition` (source lines
194-269), in push order: the field statement, then recursively the nested
field and implicit-index statements when the configuration is of composite
kind and carries a `properties` key. -/
def addFieldDefinition (tableName : String) (tableGeneric : Option String)
    (fieldName : String) : FieldConfig → List String
  | .mk ty tyd df vl asr ix uq pr op props =>
    fieldStatement tableName tableGeneric fieldName
        (.mk ty tyd df vl asr ix uq pr op props)
      :: (if isComposite ty then
            addNestedProps tableName tableGeneric fieldName ty props
          else [])

/-- Nested recursion guard: `'properties' in fieldConfig` (source line
256) — an absent key yields nothing. -/
def addNestedProps (tableName : String) (tableGeneric : Option String)
    (fieldName : String) (parentType : Option String) : PropsVal → List String
  | .absent => []
  | .present l => addNestedList tableName tableGeneric fieldName parentType l

/-- Iteration over `Object.entries(fieldConfig.properties)` (source lines
258-267): each nested field contributes its field definition followed by
its implicit index definition. -/
def addNestedList (tableName : String) (tableGeneric : Option String)
    (fieldName : String) (parentType : Option String) : PropList → List String
  | .nil => []
  | .cons n nfc tl =>
    addFieldDefinition tableName tableGeneric (childPath parentType fieldName n) nfc
      ++ addIndexDefinition tableName (childPath parentType fieldName n) nfc
      ++ addNestedList tableName tableGeneric fieldName parentType tl
end

/-- Table-name entry of a descriptor's `tables` sequence: either a bare
string or a `TableGenericConfig` pair (source lines 93-99). -/
inductive TableEntry where
  | str (name : String)
  | obj (name : String) (generic : String)
deriving DecidableEq

/-- IndexSchema (source lines 87-91). -/
structure IndexSchema where
  name : Option String
  fields : List String
  unique : Option Bool
deriving DecidableEq

/-- SchemaObject (source lines 98-106): the resolved per-declaration
descriptor consumed by the renderer. -/
structure SchemaObject where
  tables : List TableEntry
  schemaMode : Option String
  indexes : Option (List IndexSchema)
  properties : PropList

/-- Table-level explicit index statements, `addTableIndexes` (source
lines 287-297): the name defaults through `??`, so an explicit empty
string is kept, and `UNIQUE` is appended when `unique` is truthy. -/
def addTableIndexes (tableName : String) : Option (List IndexSchema) → List String
  | none => []
  | some idxs =>
    idxs.flatMap fun idx =>
      [joinSpace
        (["DEFINE INDEX "
            ++ idx.name.getD ("idx_" ++ tableName ++ "_" ++ joinWith "_" idx.fields)
            ++ " ON " ++ tableName ++ " FIELDS " ++ joinWith ", " idx.fields]
          ++ (if optBoolTruthy idx.unique then ["UNIQUE"] else []))
        ++ ";"]

/-- Top-level iteration over a table's fields (source lines 325-331): for
each property, in insertion order, the field definition then the implicit
index definition. -/
def fieldsAndIndexes (tableName : String) (tableGeneric : Option String) :
    PropList → List String
  | .nil => []
  | .cons n fc tl =>
    addFieldDefinition tableName tableGeneric n fc
      ++ addIndexDefinition tableName n fc
      ++ fieldsAndIndexes tableName tableGeneric tl

/-- Statements of one table block (source lines 302-338): optional comment
banner, `DEFINE TABLE`, fields with implicit indexes, table-level indexes,
and the `"\n"` separator entry.  An absent `schemaMode` prints the word
`undefined`, as a JavaScript template literal does. -/
def tableBlock (comments : Bool) (schema : SchemaObject) (table : TableEntry) :
    List String :=
  let tableName := match table with | .str s => s | .obj n _ => n
  let tableGeneric : Option String :=
    match table with | .str _ => none | .obj _ g => some g
  (if comments then
      ["-- ------------------------------", "-- TABLE: " ++ tableName,
       "-- ------------------------------\n"]
    else [])
  ++ ["DEFINE TABLE " ++ tableName ++ " " ++ schema.schemaMode.getD "undefined" ++ ";"]
  ++ (if comments then [""] else [])
  ++ fieldsAndIndexes tableName tableGeneric schema.properties
  ++ addTableIndexes tableName schema.indexes
  ++ ["\n"]

/-- Registered descriptors, keyed by declaration identity: the model of
the class-scoped static `SurrealdbSchema` fields read by the renderer. -/
abbrev Registry := List (Nat × SchemaObject)

/-- Association-list lookup with numeric keys. -/
def lookupA {α : Type} : List (Nat × α) → Nat → Option α
  | [], _ => none
  | (k, v) :: rest, n => if k = n then some v else lookupA rest n

/-- Loop over the entities passed to `generateSurqlSchema` (source lines
299-339), threading the registry so that the frame behaviour of rendering
is explicit.  Reading `entity.SurrealdbSchema` of an unregistered
declaration faults, as the source's destructuring would. -/
def renderEntities (reg : Registry) (comments : Bool) :
    List Nat → Except String (List String × Registry)
  | [] => .ok ([], reg)
  | e :: rest =>
    match lookupA reg e with
    | none => .error "TypeError: cannot destructure SurrealdbSchema of undefined"
    | some schema =>
      match renderEntities reg comments rest with
      | .error m => .error m
      | .ok (parts, regOut) =>
        .ok (schema.tables.flatMap (tableBlock comments schema) ++ parts, regOut)

/-- The renderer `generateSurqlSchema` (source lines 191-342): the
accumulated statements joined by newlines, returned together with the
registry it read. -/
def generateSurqlSchema (reg : Registry) (entities : List Nat) (comments : Bool) :
    Except String (String × Registry) :=
  match renderEntities reg comments entities with
  | .error m => .error m
  | .ok (parts, regOut) => .ok (joinNl parts, regOut)

example : computeFieldType "person" none
    (.mk (some "string") none none none none none none (some true) none .absent)
    = "record<person>" := by decide

example : computeFieldType "t" (some "number")
    (.mk (some "record") (some (.str "$$generic")) none none none none none none none .absent)
    = "record<number>" := by decide

example : addIndexDefinition "person" "id"
    (.mk (some "string") none none none none none none (some true) none .absent)
    = ["DEFINE INDEX idx_person_id ON person FIELDS id UNIQUE;"] := by decide

/-- Basic configuration `{ type: s }`, the normalization of a bare kind. -/
def basicFC (s : String) : FieldConfig :=
  .mk (some s) none none none none none none none none .absent

/-- Descriptor of the `Person` test class: fields `name: 'string'` and
`id: { type: 'string', primary: true }` on table `person`. -/
def personSchema : SchemaObject where
  tables := [.str "person"]
  schemaMode := some "SCHEMALESS"
  indexes := none
  properties :=
    .cons "name" (basicFC "string")
      (.cons "id" (.mk (some "string") none none none none none none (some true) none .absent)
        .nil)

example : generateSurqlSchema [(0, personSchema)] [0] false
    = .ok ("DEFINE TABLE person SCHEMALESS;\n"
        ++ "DEFINE FIELD name ON person TYPE string;\n"
        ++ "DEFINE FIELD id ON person TYPE record<person>;\n"
        ++ "DEFINE INDEX idx_person_id ON person FIELDS id UNIQUE;\n\n",
        [(0, personSchema)]) := by rfl

/-- Descriptor of the `Company` test class: a generic table entry, a
SCHEMAFULL mode and one explicit table-level unique index. -/
def companySchema : SchemaObject where
  tables := [.obj "company" "string"]
  schemaMode := some "SCHEMAFULL"
  indexes := some [⟨some "idx_name", ["name"], some true⟩]
  properties := .cons "name" (basicFC "string") (.cons "description" (basicFC "string") .nil)

example : generateSurqlSchema [(0, companySchema)] [0] false
    = .ok ("DEFINE TABLE company SCHEMAFULL;\n"
        ++ "DEFINE FIELD name ON company TYPE string;\n"
        ++ "DEFINE FIELD description ON company TYPE string;\n"
        ++ "DEFINE INDEX idx_name ON company FIELDS name UNIQUE;\n\n",
        [(0, companySchema)]) := by rfl

/-- Descriptor of the `Employee` test class: one `object` field whose
nested properties are the `Address` fields `city` and `postcode`. -/
def employeeSchema : SchemaObject where
  tables := [.str "employee"]
  schemaMode := some "SCHEMALESS"
  indexes := none
  properties :=
    .cons "address"
      (.mk (some "object") (some .ref) none none none none none none none
        (.present (.cons "city" (basicFC "string") (.cons "postcode" (basicFC "string") .nil))))
      .nil

example : generateSurqlSchema [(0, employeeSchema)] [0] false
    = .ok ("DEFINE TABLE employee SCHEMALESS;\n"
        ++ "DEFINE FIELD address ON employee TYPE object;\n"
        ++ "DEFINE FIELD address.city ON employee TYPE string;\n"
        ++ "DEFINE FIELD address.postcode ON employee TYPE string;\n\n",
        [(0, employeeSchema)]) := by rfl

/-- Registration-time value of `typed`: a plain string or a reference to a
class, identified by its declaration id. -/
inductive TypedIn where
  | str (s : String)
  | ref (cls : Nat)
deriving DecidableEq

/-- Truthiness of an optional registration-time `typed` value. -/
def typedInTruthy : Option TypedIn → Bool
  | none => false
  | some (.str s) => s != ""
  | some (.ref _) => true

/-- Field-configuration object of the registration phase.  Its nested
`properties` mapping, when present, is a reference into the heap of
property-map objects, because the source stores the referenced schema's
`properties` object itself (source line 158), not a copy of it. -/
structure FieldConfigR where
  type : Option String
  typed : Option TypedIn
  default : Option String
  value : Option String
  assertion : Option String
  indexed : Option Bool
  unique : Option Bool
  primary : Option Bool
  optional : Option Bool
  propertiesRef : Option Nat
deriving DecidableEq

/-- Heap cell content: one JavaScript object holding an insertion-ordered
`properties` mapping. -/
abbrev PropMap := List (String × FieldConfigR)

/-- Registration-time descriptor (`SurrealdbSchema`): its `properties`
attribute is a heap reference. -/
structure DescrR where
  tables : List TableEntry
  schemaMode : Option String
  indexes : Option (List IndexSchema)
  propsRef : Nat
deriving DecidableEq

/-- State of the registration phase: the heap of property-map objects, the
per-declaration descriptor slots (each class owns its static
`SurrealdbSchema` slot, as the library requires every class to declare
one), and the next fresh heap reference. -/
structure RegState where
  heap : List (Nat × PropMap)
  descrs : List (Nat × DescrR)
  nextRef : Nat
deriving DecidableEq

/-- The state before any decorator has run. -/
def regEmpty : RegState := ⟨[], [], 0⟩

/-- Association-list update for numeric keys: an existing binding is
replaced in place, a new one is appended. -/
def setA {α : Type} : List (Nat × α) → Nat → α → List (Nat × α)
  | [], n, v => [(n, v)]
  | (k, w) :: rest, n, v =>
    if k = n then (n, v) :: rest else (k, w) :: setA rest n v

/-- Content of the heap object behind a reference (the source only ever
dereferences live objects). -/
def heapGetM (h : List (Nat × PropMap)) (r : Nat) : PropMap :=
  (lookupA h r).getD []

/-- Lookup in a property mapping. -/
def lookupProp : PropMap → String → Option FieldConfigR
  | [], _ => none
  | (k, v) :: rest, n => if k = n then some v else lookupProp rest n

/-- JavaScript property assignment on an object: an existing key keeps its
position and gets the new value, a new key is appended. -/
def setProp : PropMap → String → FieldConfigR → PropMap
  | [], k, v => [(k, v)]
  | (k', w) :: rest, k, v =>
    if k' = k then (k, v) :: rest else (k', w) :: setProp rest k v

/-- Object-spread merge `{...a, ...b}`: the keys of `a` in order,
each bound to `b`'s value when `b` also has the key, followed by the keys
of `b` not in `a`, in `b`'s order. -/
def jsMerge (a b : PropMap) : PropMap :=
  a.map (fun p => match lookupProp b p.1 with | some v => (p.1, v) | none => p)
    ++ b.filter (fun p => (lookupProp a p.1).isNone)

/-- The function `initializeSchema` (source lines 112-130): create the
descriptor with a fresh empty properties object when the class has none
(lines 113-117), then, when the parent class exposes a descriptor, point
the class's `properties` at a freshly allocated spread-merge of the
parent's and its own mappings (lines 122-129).  The `else if` at lines
118-120 re-creates a missing `properties` object; descriptors built by
this model always carry one, so that branch never fires here. -/
def initializeSchema (par : Nat → Option Nat) (c : Nat) (σ : RegState) : RegState :=
  let σ1 :=
    match lookupA σ.descrs c with
    | none =>
      { heap := setA σ.heap σ.nextRef []
        descrs := setA σ.descrs c ⟨[], none, none, σ.nextRef⟩
        nextRef := σ.nextRef + 1 }
    | some _ => σ
  match par c with
  | none => σ1
  | some p =>
    match lookupA σ1.descrs p with
    | none => σ1
    | some dp =>
      match lookupA σ1.descrs c with
      | none => σ1
      | some dc =>
        let merged := jsMerge (heapGetM σ1.heap dp.propsRef) (heapGetM σ1.heap dc.propsRef)
        { heap := setA σ1.heap σ1.nextRef merged
          descrs := setA σ1.descrs c ({ dc with propsRef := σ1.nextRef })
          nextRef := σ1.nextRef + 1 }

/-- Argument of the `Field` decorator: a bare kind string or a full
configuration object (the two overloads at source lines 132-133). -/
inductive FieldArgs where
  | kind (s : String)
  | config (c : FieldConfigR)

/-- Normalization at source lines 140-146: a bare string becomes
`{ type: args }`; an object is shallow-copied, which copies its
`properties` reference as such. -/
def normalizeArgs : FieldArgs → FieldConfigR
  | .kind s => ⟨some s, none, none, none, none, none, none, none, none, none⟩
  | .config c => c

/-- Capture of a referenced schema's properties, source lines 148-160: for
a composite kind with a truthy non-string `typed`, the field's
`properties` is made to point at the referenced class's current
`properties` object — the very object, not a copy.  Dereferencing a class
that has no descriptor faults, as `field.typed.SurrealdbSchema.properties`
would. -/
def captureTyped (σ : RegState) (field : FieldConfigR) : Except String FieldConfigR :=
  if isComposite field.type && typedInTruthy field.typed then
    match field.typed with
    | some (.ref a) =>
      match lookupA σ.descrs a with
      | some da => .ok { field with propertiesRef := some da.propsRef }
      | none => .error "TypeError: cannot read properties of undefined"
    | _ => .ok field
  else .ok field

/-- The `Field` decorator body (source lines 134-166): reject a missing
target or property key, normalize the argument, capture a referenced
schema's properties object, initialize the owning schema, and write the
field under the property key — mutating the owning descriptor's
properties object in place. -/
def FieldDec (par : Nat → Option Nat) (args : FieldArgs)
    (target : Option Nat) (propertyKey : Option String) (σ : RegState) :
    Except String RegState :=
  match target, propertyKey with
  | some tc, some k =>
    let field := normalizeArgs args
    match captureTyped σ field with
    | .error m => .error m
    | .ok fieldF =>
      let σ1 := initializeSchema par tc σ
      match lookupA σ1.descrs tc with
      | none => .error "unreachable: descriptor missing after initializeSchema"
      | some dc =>
        .ok { σ1 with
          heap := setA σ1.heap dc.propsRef
            (setProp (heapGetM σ1.heap dc.propsRef) k fieldF) }
  | _, _ => .error "Invalid target or propertyKey in Field decorator."

/-- Argument of the `Table` decorator: a bare name, a list of table
entries, or a full table configuration (source line 174). -/
inductive TableArgs where
  | str (s : String)
  | arr (l : List TableEntry)
  | cfg (tables : List TableEntry) (schemaMode : Option String)
        (indexes : Option (List IndexSchema))

/-- The `Table` decorator body (source lines 174-189). -/
def TableDec (par : Nat → Option Nat) (config : TableArgs) (c : Nat)
    (σ : RegState) : RegState :=
  let σ1 := initializeSchema par c σ
  match lookupA σ1.descrs c with
  | none => σ1
  | some dc =>
    match config with
    | .str s =>
      let dc2 := { dc with tables := [TableEntry.str s], schemaMode := some "SCHEMALESS" }
      { σ1 with descrs := setA σ1.descrs c dc2 }
    | .arr l =>
      let dc2 := { dc with tables := l, schemaMode := some "SCHEMALESS" }
      { σ1 with descrs := setA σ1.descrs c dc2 }
    | .cfg ts m ix =>
      let dc2 := { dc with tables := ts, schemaMode := some (m.getD "SCHEMALESS"),
                           indexes := ix }
      { σ1 with descrs := setA σ1.descrs c dc2 }

/-- Resolved view of a class's registered properties mapping. -/
def resolvedProps (σ : RegState) (c : Nat) : Option PropMap :=
  (lookupA σ.descrs c).map (fun d => heapGetM σ.heap d.propsRef)

/-- Resolved view of the nested properties mapping carried by one
registered field of a class. -/
def nestedProps (σ : RegState) (c : Nat) (f : String) : Option PropMap :=
  match resolvedProps σ c with
  | none => none
  | some m =>
    match lookupProp m f with
    | none => none
    | some cfg =>
      match cfg.propertiesRef with
      | none => none
      | some r => some (heapGetM σ.heap r)

/-- Claim C2 counterexample: for a field `{ type: 'object', typed: 'string' }`
the renderer emits the type `object<string>`, not the bare `object` the
claim predicts, and a plain-string `typed` that merely contains the
`$$generic` marker (here `set<$$generic>`) is not substituted: only a
`typed` that is exactly `$$generic` is. -/
theorem composite_object_typed_counterexample :
    (computeFieldType "t" (some "number")
        (.mk (some "object") (some (.str "string")) none none none none none none none .absent)
      = "object<string>" ∧ "object<string>" ≠ "object")
    ∧ (computeFieldType "t" (some "number")
        (.mk (some "array") (some (.str "set<$$generic>")) none none none none none none none .absent)
      = "array<set<$$generic>>" ∧ "array<set<$$generic>>" ≠ "array<set<number>>") := by
  decide

/-- Claim C2, amended: in the renderer's field-definition step, when a
non-primary field's type is a composite kind and its `typed` is a truthy
plain string `s`, the rendered type is `<type><s'>` for every composite
kind — including `object` — where `s'` is `tableGeneric` (defaulting to
`any`) when `s` is exactly the string `$$generic`, and `s` itself
otherwise (no substring substitution takes place). -/
theorem composite_plain_typed_render (t : String) (g : Option String)
    (k s : String) (fc : FieldConfig)
    (hp : optBoolTruthy fc.primary = false)
    (hk : k = "option" ∨ k = "set" ∨ k = "array" ∨ k = "record" ∨ k = "object")
    (hty : fc.type = some k) (htyd : fc.typed = some (.str s)) (hs : s ≠ "") :
    computeFieldType t g fc
      = k ++ "<" ++ (if s = "$$generic" then g.getD "any" else s) ++ ">" := by
  rcases hk with rfl | rfl | rfl | rfl | rfl <;>
    simp [computeFieldType, hp, hty, htyd, isComposite, typedTruthy, hs]

/-- Witness for C2's amended theorem at a concrete input. -/
theorem composite_plain_typed_render_witness :
    computeFieldType "t" (some "number")
        (.mk (some "record") (some (.str "$$generic")) none none none none none none none .absent)
      = "record<number>" := by
  have h := composite_plain_typed_render "t" (some "number") "record" "$$generic"
    (.mk (some "record") (some (.str "$$generic")) none none none none none none none .absent)
    (by decide) (by decide) (by decide) (by decide) (by decide)
  rw [h]; decide

/-- Claim C3: a field whose configuration has a truthy `primary` renders
with the type `record<tableName>` whatever its `type` and `typed`
attributes hold (the configuration is universally quantified), and its
implicit index statement is always emitted and always carries the
`UNIQUE` suffix.  The `TYPE` clause of the field statement is built from
this computed type (an `optional` flag may further wrap it in
`option<...>`). -/
theorem primary_override_record_type_unique_index (t : String)
    (g : Option String) (n : String) (fc : FieldConfig)
    (h : optBoolTruthy fc.primary = true) :
    computeFieldType t g fc = "record<" ++ t ++ ">"
    ∧ addIndexDefinition t n fc
      = ["DEFINE INDEX idx_" ++ t ++ "_" ++ replaceStarDot n ++ " ON " ++ t
          ++ " FIELDS " ++ n ++ " UNIQUE;"] := by
  constructor
  · simp [computeFieldType, h]
  · simp [addIndexDefinition, h, joinSpace, String.append_assoc]

/-- Witness for C3 at a concrete primary field. -/
theorem primary_override_record_type_unique_index_witness :
    computeFieldType "person" none
        (.mk (some "string") none none none none none none (some true) none .absent)
      = "record<person>"
    ∧ addIndexDefinition "person" "id"
        (.mk (some "string") none none none none none none (some true) none .absent)
      = ["DEFINE INDEX idx_person_id ON person FIELDS id UNIQUE;"] := by
  have h := primary_override_record_type_unique_index "person" none "id"
    (.mk (some "string") none none none none none none (some true) none .absent) (by decide)
  exact ⟨by rw [h.1]; decide, by rw [h.2]; decide⟩

/-- Claim C6: the implicit index statement is emitted exactly when
`primary`, `indexed` or `unique` is truthy; its name is
`idx_<table>_<path>` with every `.` and `*` of the path replaced by `_`;
it lists exactly the field path; and the `UNIQUE` suffix is present
exactly when `primary` or `unique` is truthy — `indexed` alone yields a
non-unique index. -/
theorem implicit_index_characterization (t n : String) (fc : FieldConfig) :
    addIndexDefinition t n fc
      = if optBoolTruthy fc.primary || optBoolTruthy fc.indexed || optBoolTruthy fc.unique then
          [if optBoolTruthy fc.primary || optBoolTruthy fc.unique then
              "DEFINE INDEX idx_" ++ t ++ "_" ++ replaceStarDot n ++ " ON " ++ t
                ++ " FIELDS " ++ n ++ " UNIQUE;"
            else
              "DEFINE INDEX idx_" ++ t ++ "_" ++ replaceStarDot n ++ " ON " ++ t
                ++ " FIELDS " ++ n ++ ";"]
        else [] := by
  cases hp : optBoolTruthy fc.primary <;> cases hi : optBoolTruthy fc.indexed <;>
    cases hu : optBoolTruthy fc.unique <;>
      simp [addIndexDefinition, hp, hi, hu, joinSpace, String.append_assoc]

/-- Claim C7: a non-primary field whose `type` is the `$$generic` marker
renders as the table entry's generic parameter, and as `any` — with no
error — when the table entry carries none; the same substitution and
fallback apply when `$$generic` appears as a composite kind's plain-string
`typed`. -/
theorem generic_marker_substitution (t g k : String) (fc fd : FieldConfig)
    (hfp : optBoolTruthy fc.primary = false) (hft : fc.type = some "$$generic")
    (hdp : optBoolTruthy fd.primary = false)
    (hk : k = "option" ∨ k = "set" ∨ k = "array" ∨ k = "record" ∨ k = "object")
    (hdt : fd.type = some k) (hdy : fd.typed = some (.str "$$generic")) :
    (computeFieldType t (some g) fc = g ∧ computeFieldType t none fc = "any")
    ∧ (computeFieldType t (some g) fd = k ++ "<" ++ g ++ ">"
       ∧ computeFieldType t none fd = k ++ "<any>") := by
  constructor
  · constructor <;> simp [computeFieldType, hfp, hft, isComposite]
  · rcases hk with rfl | rfl | rfl | rfl | rfl <;>
      constructor <;>
        simp [computeFieldType, hdp, hdt, hdy, isComposite, typedTruthy,
          String.append_assoc]

/-- Witness for C7 at concrete configurations `{ type: '$$generic' }` and
`{ type: 'record', typed: '$$generic' }`. -/
theorem generic_marker_substitution_witness :
    (computeFieldType "test1" (some "number") (basicFC "$$generic") = "number"
      ∧ computeFieldType "test1" none (basicFC "$$generic") = "any")
    ∧ (computeFieldType "test1" (some "number")
          (.mk (some "record") (some (.str "$$generic")) none none none none none none none .absent)
        = "record" ++ "<" ++ "number" ++ ">"
       ∧ computeFieldType "test1" none
          (.mk (some "record") (some (.str "$$generic")) none none none none none none none .absent)
        = "record" ++ "<any>") :=
  generic_marker_substitution "test1" "number" "record" (basicFC "$$generic")
    (.mk (some "record") (some (.str "$$generic")) none none none none none none none .absent)
    (by decide) (by decide) (by decide) (by decide) (by decide) (by decide)

/-- Claim C10: an empty-string `default`, `value` or `assertion` attribute
yields exactly the field statement its absence would: the DEFAULT / VALUE
/ ASSERT clause is gated on the text being truthy, not merely present. -/
theorem empty_clause_treated_as_absent (t : String) (g : Option String)
    (n : String) (ty : Option String) (tyd : Option TypedVal)
    (df vl asr : Option String) (ix uq pr op : Option Bool) (props : PropsVal) :
    fieldStatement t g n (.mk ty tyd (some "") vl asr ix uq pr op props)
      = fieldStatement t g n (.mk ty tyd none vl asr ix uq pr op props)
    ∧ fieldStatement t g n (.mk ty tyd df (some "") asr ix uq pr op props)
      = fieldStatement t g n (.mk ty tyd df none asr ix uq pr op props)
    ∧ fieldStatement t g n (.mk ty tyd df vl (some "") ix uq pr op props)
      = fieldStatement t g n (.mk ty tyd df vl none ix uq pr op props) := by
  refine ⟨rfl, rfl, rfl⟩

lemma renderEntities_registry_eq (reg : Registry) (c : Bool) :
    ∀ (es : List Nat) (parts : List String) (r : Registry),
      renderEntities reg c es = .ok (parts, r) → r = reg := by
  intro es
  induction es with
  | nil =>
    intro parts r h
    simp [renderEntities] at h
    exact h.2.symm
  | cons e rest ih =>
    intro parts r h
    unfold renderEntities at h
    cases hl : lookupA reg e <;> rw [hl] at h
    · simp at h
    · cases hr : renderEntities reg c rest <;> rw [hr] at h
      · simp at h
      · rename_i schema val
        obtain ⟨parts2, r2⟩ := val
        simp at h
        rcases h with ⟨-, h2⟩
        subst h2
        exact ih parts2 r2 hr

lemma generateSurqlSchema_registry_eq (reg : Registry) (es : List Nat)
    (c : Bool) (s : String) (r : Registry)
    (h : generateSurqlSchema reg es c = .ok (s, r)) : r = reg := by
  unfold generateSurqlSchema at h
  cases hr : renderEntities reg c es <;> rw [hr] at h
  · simp at h
  · rename_i val
    obtain ⟨parts, r2⟩ := val
    simp at h
    rcases h with ⟨-, h2⟩
    subst h2
    exact renderEntities_registry_eq reg c es parts r2 hr

/-- Claim C8: rendering never mutates any registered descriptor — a
successful run of `generateSurqlSchema` returns the registry of
descriptors it was given, unchanged; the renderer only reads the
descriptors (their tables, schema mode, indexes and nested properties are
resolved values in this registry, so preserving the registry preserves
all of them). -/
theorem render_preserves_registry (reg : Registry) (es : List Nat) (c : Bool)
    (s : String) (r : Registry)
    (h : generateSurqlSchema reg es c = .ok (s, r)) : r = reg :=
  generateSurqlSchema_registry_eq reg es c s r h

/-- Witness for C8 on the concrete `Person` registry. -/
theorem render_preserves_registry_witness :
    generateSurqlSchema [(0, personSchema)] [0] false
      = .ok ("DEFINE TABLE person SCHEMALESS;\n"
          ++ "DEFINE FIELD name ON person TYPE string;\n"
          ++ "DEFINE FIELD id ON person TYPE record<person>;\n"
          ++ "DEFINE INDEX idx_person_id ON person FIELDS id UNIQUE;\n\n",
          [(0, personSchema)])
    ∧ ([(0, personSchema)] : Registry) = [(0, personSchema)] :=
  ⟨by rfl, render_preserves_registry [(0, personSchema)] [0] false _ _ (by rfl)⟩

/-- Claim C4: rendering is deterministic — with the registry, entity list
and comments flag fixed, a second call made after (and on the registry
returned by) a first successful call produces the byte-identical output
string and registry; together with C8's frame property this is the
idempotent re-render contract.  Same-input determinism itself is inherent
in the model: `generateSurqlSchema` is a function of exactly these
inputs, with properties iterated in insertion order. -/
theorem rerender_byte_identical (reg : Registry) (es : List Nat) (c : Bool)
    (s : String) (r : Registry)
    (h : generateSurqlSchema reg es c = .ok (s, r)) :
    generateSurqlSchema r es c = .ok (s, r) := by
  have hr := generateSurqlSchema_registry_eq reg es c s r h
  subst hr
  exact h

/-- Witness for C4 on the concrete `Company` registry. -/
theorem rerender_byte_identical_witness :
    generateSurqlSchema [(0, companySchema)] [0] false
      = .ok ("DEFINE TABLE company SCHEMAFULL;\n"
          ++ "DEFINE FIELD name ON company TYPE string;\n"
          ++ "DEFINE FIELD description ON company TYPE string;\n"
          ++ "DEFINE INDEX idx_name ON company FIELDS name UNIQUE;\n\n",
          [(0, companySchema)]) :=
  rerender_byte_identical [(0, companySchema)] [0] false _ _ (by rfl)

/-- Class world with no parent declarations (every class extends only the
schema-less base). -/
def parNone : Nat → Option Nat := fun _ => none

/-- Class world in which declaration 1 is a subclass of declaration 0. -/
def par01 : Nat → Option Nat := fun n => if n = 1 then some 0 else none

/-- Configuration `{ type: 'object', typed: A }` where `A` is the class
with declaration id 0. -/
def objRef0 : FieldConfigR :=
  ⟨some "object", some (.ref 0), none, none, none, none, none, none, none, none⟩

/-- Resolved properties of a class after a registration chain (`none`
when the chain failed or the class has no descriptor). -/
def propsAfter (r : Except String RegState) (c : Nat) : Option PropMap :=
  match r with
  | .ok σ => resolvedProps σ c
  | .error _ => none

/-- Resolved nested properties of one registered field after a
registration chain. -/
def nestedAfter (r : Except String RegState) (c : Nat) (f : String) : Option PropMap :=
  match r with
  | .ok σ => nestedProps σ c f
  | .error _ => none

/-- Registration chain: field `x` on class 0, then field `f` on class 1
whose configuration references class 0's schema through `typed`. -/
def c1chain2 (x f : String) : Except String RegState :=
  (FieldDec parNone (.kind "string") (some 0) (some x) regEmpty).bind
    (FieldDec parNone (.config objRef0) (some 1) (some f))

/-- The same chain followed by a later registration of field `y` on the
referenced class 0. -/
def c1chain3 (x f y : String) : Except String RegState :=
  (c1chain2 x f).bind (FieldDec parNone (.kind "string") (some 0) (some y))

/-- Claim C1 counterexample: after class 1 registers field `address`
referencing class 0's schema (which then holds only `city`), a later
registration of `postcode` on class 0 is visible through the
already-registered field's nested properties — the nested mapping is not
a registration-time snapshot. -/
theorem typed_snapshot_counterexample :
    nestedAfter (c1chain2 "city" "address") 1 "address"
      = some [("city", normalizeArgs (.kind "string"))]
    ∧ nestedAfter (c1chain3 "city" "address" "postcode") 1 "address"
      = some [("city", normalizeArgs (.kind "string")),
              ("postcode", normalizeArgs (.kind "string"))]
    ∧ nestedAfter (c1chain3 "city" "address" "postcode") 1 "address"
      ≠ nestedAfter (c1chain2 "city" "address") 1 "address" := by
  decide

/-- Claim C1, amended: when a composite-kind configuration's `typed`
references another registered declaration, the referenced declaration's
`properties` mapping is attached to the new field by reference, not
copied: from registration on, the owning field's nested properties view
coincides with the referenced declaration's own current view, and a later
field registration on the referenced declaration (which, absent a
schema-bearing parent, mutates its mapping in place) is visible through
the owning field. -/
theorem typed_properties_aliased (x f y : String) (hxy : x ≠ y) :
    nestedAfter (c1chain2 x f) 1 f = propsAfter (c1chain2 x f) 0
    ∧ nestedAfter (c1chain3 x f y) 1 f = propsAfter (c1chain3 x f y) 0
    ∧ nestedAfter (c1chain3 x f y) 1 f
      = some [(x, normalizeArgs (.kind "string")),
              (y, normalizeArgs (.kind "string"))] := by
  refine ⟨?_, ?_, ?_⟩ <;>
    simp [c1chain2, c1chain3, FieldDec, normalizeArgs, captureTyped, typedInTruthy,
      isComposite, initializeSchema, regEmpty, parNone, objRef0, lookupA, setA,
      heapGetM, lookupProp, setProp, jsMerge, nestedAfter, propsAfter,
      nestedProps, resolvedProps, Except.bind, hxy]

/-- Witness for C1's amended theorem at the concrete scenario. -/
theorem typed_properties_aliased_witness :
    nestedAfter (c1chain2 "city" "address") 1 "address"
      = propsAfter (c1chain2 "city" "address") 0
    ∧ nestedAfter (c1chain3 "city" "address" "postcode") 1 "address"
      = propsAfter (c1chain3 "city" "address" "postcode") 0
    ∧ nestedAfter (c1chain3 "city" "address" "postcode") 1 "address"
      = some [("city", normalizeArgs (.kind "string")),
              ("postcode", normalizeArgs (.kind "string"))] :=
  typed_properties_aliased "city" "address" "postcode" (by decide)

/-- Property of a configuration whose `typed` is not a class reference, so
that registering it captures no foreign `properties` object. -/
def refFreeCfg (c : FieldConfigR) : Prop :=
  ∀ r, c.typed ≠ some (TypedIn.ref r)

lemma captureTyped_refFree {c : FieldConfigR} (h : refFreeCfg c)
    (σ : RegState) : captureTyped σ c = .ok c := by
  unfold captureTyped
  cases hc : c.typed with
  | none => simp [typedInTruthy, hc]
  | some tv =>
    cases tv with
    | str s => split <;> rfl
    | ref a => exact absurd hc (h a)

/-- Registration chain for inheritance: parent class 0 registers field
`a`, then subclass 1 registers field `b`. -/
def c5chain2 (a b : String) (ca cb : FieldConfigR) : Except String RegState :=
  (FieldDec par01 (.config ca) (some 0) (some a) regEmpty).bind
    (FieldDec par01 (.config cb) (some 1) (some b))

/-- The same chain followed by the subclass redeclaring field `a`. -/
def c5chain3 (a b : String) (ca cb ca2 : FieldConfigR) : Except String RegState :=
  (c5chain2 a b ca cb).bind (FieldDec par01 (.config ca2) (some 1) (some a))

/-- Claim C5: after a parent declaration registers field `a` and its
subclass registers field `b`, the subclass's descriptor holds both `a`
(with the parent's configuration) and `b`; when the subclass additionally
registers its own field named `a`, the configuration stored under `a` in
the subclass's descriptor is the subclass's version. -/
theorem inheritance_merge_subclass_wins (a b : String) (hab : a ≠ b)
    (ca cb ca2 : FieldConfigR)
    (h1 : refFreeCfg ca) (h2 : refFreeCfg cb) (h3 : refFreeCfg ca2) :
    propsAfter (c5chain2 a b ca cb) 1 = some [(a, ca), (b, cb)]
    ∧ propsAfter (c5chain3 a b ca cb ca2) 1 = some [(a, ca2), (b, cb)] := by
  constructor <;>
    simp [c5chain2, c5chain3, FieldDec, normalizeArgs,
      captureTyped_refFree h1, captureTyped_refFree h2, captureTyped_refFree h3,
      initializeSchema, regEmpty, par01, lookupA, setA, heapGetM, lookupProp,
      setProp, jsMerge, propsAfter, resolvedProps, Except.bind, hab]

/-- Witness for C5 at concrete field names and configurations. -/
theorem inheritance_merge_subclass_wins_witness :
    propsAfter
        (c5chain2 "a" "b" (normalizeArgs (.kind "int")) (normalizeArgs (.kind "string"))) 1
      = some [("a", normalizeArgs (.kind "int")), ("b", normalizeArgs (.kind "string"))]
    ∧ propsAfter
        (c5chain3 "a" "b" (normalizeArgs (.kind "int")) (normalizeArgs (.kind "string"))
          (normalizeArgs (.kind "bool"))) 1
      = some [("a", normalizeArgs (.kind "bool")), ("b", normalizeArgs (.kind "string"))] :=
  inheritance_merge_subclass_wins "a" "b" (by decide)
    (normalizeArgs (.kind "int")) (normalizeArgs (.kind "string"))
    (normalizeArgs (.kind "bool"))
    (fun r => by simp [normalizeArgs]) (fun r => by simp [normalizeArgs])
    (fun r => by simp [normalizeArgs])

/-- Claim C9: the `Field` decorator rejects a missing owning declaration
or an undefined property key with an immediate error; the error is raised
before any descriptor is created or modified, so a failing annotation
leaves the registry untouched (the erroneous run produces no successor
state). -/
theorem field_invalid_target_errors (par : Nat → Option Nat)
    (args : FieldArgs) (σ : RegState)
    (target : Option Nat) (propertyKey : Option String)
    (h : target = none ∨ propertyKey = none) :
    FieldDec par args target propertyKey σ
      = .error "Invalid target or propertyKey in Field decorator." := by
  rcases h with rfl | rfl
  · cases propertyKey <;> rfl
  · cases target <;> rfl

/-- Witness for C9: a field annotation with no owning declaration. -/
theorem field_invalid_target_errors_witness :
    FieldDec parNone (.kind "string") none (some "name") regEmpty
      = .error "Invalid target or propertyKey in Field decorator." :=
  field_invalid_target_errors parNone (.kind "string") regEmpty none
    (some "name") (Or.inl rfl)
